import Mathlib

/-!
Shallow embedding of the thermo-calculator repository.

The repository is a thin orchestration layer over an external property
collaborator (CoolProp, accessed through `CP.PropsSI`).  We model the
collaborator as an abstract query function (`Oracle`) returning either a
scalar or a failure message; Python float arithmetic is modelled exactly
over `ℚ`; Python exceptions are modelled by the `Except PyErr` monad,
where `PyErr.valueError` is a `ValueError` raised by this repository's
code, `PyErr.native` is the collaborator's own exception type escaping,
and `PyErr.zeroDivision` is Python's `ZeroDivisionError`.

Python's transcendental float operations (`**` and `math.log`) used by
`polytropic_process` are modelled as abstract total functions on `ℚ`
(`FloatOps`); their domain errors are outside the model.
-/

/-- Python error values observable from the embedded code: `valueError m`
is `ValueError(m)` raised by repository code, `native m` is the external
collaborator's own exception type carrying message `m`, and
`zeroDivision` is Python's `ZeroDivisionError` from float division. -/
inductive PyErr : Type
  | valueError (msg : String)
  | native (msg : String)
  | zeroDivision
deriving Repr, DecidableEq, Inhabited

/-- The text Python's `str(e)` yields for each modelled exception. -/
def errStr : PyErr → String
  | .valueError m => m
  | .native m => m
  | .zeroDivision => "float division by zero"

/-- The external collaborator, `CP.PropsSI(out, name1, v1, name2, v2, fluid)`:
returns either a scalar in SI units or a failure message of its native
exception type. -/
def Oracle : Type := String → String → ℚ → String → ℚ → String → Except String ℚ

/-- The keyword arguments accepted by `PropertyCalculator.get_properties`;
`none` models an absent Python kwarg. -/
structure Kwargs where
  temp : Option ℚ := none
  pressure : Option ℚ := none
  quality : Option ℚ := none
  enthalpy : Option ℚ := none
  entropy : Option ℚ := none
deriving Repr, DecidableEq, Inhabited

/-- The property dictionary returned by `get_properties` (boundary units:
degC, kPa, kJ/kg, kJ/kg-K, kg/m3, m3/kg); `quality` is `none` when the
Python dict stores `None`. -/
structure Props where
  temperature : ℚ
  pressure : ℚ
  enthalpy : ℚ
  entropy : ℚ
  density : ℚ
  specific_volume : ℚ
  internal_energy : ℚ
  quality : Option ℚ
deriving Repr, DecidableEq, Inhabited

/-- The inner `try`/`except` around the quality lookup in `get_properties`
(lines 74-82 of properties.py): a collaborator failure yields `None`, a
value outside `[0, 1]` yields `None`, a value in `[0, 1]` is kept. -/
def qualityOf (r : Except String ℚ) : Option ℚ :=
  match r with
  | .ok q => if 0 ≤ q ∧ q ≤ 1 then some q else none
  | .error _ => none

/-- The input-dispatch `if`/`elif` chain of `get_properties` (lines 37-62
of properties.py): resolve absolute temperature and pressure (K, Pa) from
the supplied kwargs, querying the collaborator when the pair is not
already temp+pressure.  The branch order mirrors the Python `elif` chain. -/
def resolveTP (cp : Oracle) (fl : String) (kw : Kwargs) : Except PyErr (ℚ × ℚ) :=
  match kw.temp, kw.pressure, kw.quality, kw.enthalpy, kw.entropy with
  | some t, some p, _, _, _ =>
      .ok (t + 273.15, p * 1000)
  | some t, _, some q, _, _ =>
      match cp "P" "T" (t + 273.15) "Q" q fl with
      | .error m => .error (.native m)
      | .ok P => .ok (t + 273.15, P)
  | _, some p, _, some h, _ =>
      match cp "T" "P" (p * 1000) "H" (h * 1000) fl with
      | .error m => .error (.native m)
      | .ok T => .ok (T, p * 1000)
  | _, some p, _, _, some s =>
      match cp "T" "P" (p * 1000) "S" (s * 1000) fl with
      | .error m => .error (.native m)
      | .ok T => .ok (T, p * 1000)
  | _, _, _, some h, some s =>
      match cp "T" "H" (h * 1000) "S" (s * 1000) fl with
      | .error m => .error (.native m)
      | .ok T =>
          match cp "P" "H" (h * 1000) "S" (s * 1000) fl with
          | .error m => .error (.native m)
          | .ok P => .ok (T, P)
  | _, _, _, _, _ =>
      .error (.valueError "Must provide two independent properties (temp+pressure, temp+quality, etc.)")

/-- The populate phase of `get_properties` (lines 64-84 of properties.py):
all fields are computed by single-property queries at the resolved (T, P);
`specific_volume` is `1.0 / density`, raising `ZeroDivisionError` when the
density is zero. -/
def populate (cp : Oracle) (fl : String) (T P : ℚ) : Except PyErr Props :=
  match cp "H" "T" T "P" P fl with
  | .error m => .error (.native m)
  | .ok h =>
    match cp "S" "T" T "P" P fl with
    | .error m => .error (.native m)
    | .ok s =>
      match cp "D" "T" T "P" P fl with
      | .error m => .error (.native m)
      | .ok d =>
        if d = 0 then .error .zeroDivision
        else
          match cp "U" "T" T "P" P fl with
          | .error m => .error (.native m)
          | .ok u =>
            .ok { temperature := T - 273.15
                  pressure := P / 1000
                  enthalpy := h / 1000
                  entropy := s / 1000
                  density := d
                  specific_volume := 1 / d
                  internal_energy := u / 1000
                  quality := qualityOf (cp "Q" "T" T "P" P fl) }

/-- The outer `try`/`except Exception` of `get_properties` (lines 35, 86-87
of properties.py): every failure inside the body is re-raised as
`ValueError("Error calculating properties: " + str(e))`. -/
def wrapCalc (r : Except PyErr Props) : Except PyErr Props :=
  match r with
  | .ok p => .ok p
  | .error e => .error (.valueError ("Error calculating properties: " ++ errStr e))

/-- `PropertyCalculator.get_properties` (properties.py lines 24-87). -/
def get_properties (cp : Oracle) (fl : String) (kw : Kwargs) : Except PyErr Props :=
  wrapCalc
    (match resolveTP cp fl kw with
     | .error e => .error e
     | .ok TP => populate cp fl TP.1 TP.2)

/-- The saturation-property dictionary returned by
`get_saturation_properties`. -/
structure SatProps where
  temperature : ℚ
  pressure : ℚ
  h_f : ℚ
  s_f : ℚ
  v_f : ℚ
  h_g : ℚ
  s_g : ℚ
  v_g : ℚ
  h_fg : ℚ
  s_fg : ℚ
deriving Repr, DecidableEq, Inhabited

/-- Body of `get_saturation_properties` after (T, P) are known
(properties.py lines 101-119): saturated-liquid and saturated-vapor
queries at Q=0 and Q=1, latent heats as vapor-minus-liquid differences.
There is no `try`/`except` here, so collaborator failures escape natively. -/
def satBody (cp : Oracle) (fl : String) (T P : ℚ) : Except PyErr SatProps :=
  match cp "H" "P" P "Q" 0 fl with
  | .error m => .error (.native m)
  | .ok hf =>
    match cp "S" "P" P "Q" 0 fl with
    | .error m => .error (.native m)
    | .ok sf =>
      match cp "D" "P" P "Q" 0 fl with
      | .error m => .error (.native m)
      | .ok df =>
        if df = 0 then .error .zeroDivision
        else
          match cp "H" "P" P "Q" 1 fl with
          | .error m => .error (.native m)
          | .ok hg =>
            match cp "S" "P" P "Q" 1 fl with
            | .error m => .error (.native m)
            | .ok sg =>
              match cp "D" "P" P "Q" 1 fl with
              | .error m => .error (.native m)
              | .ok dg =>
                if dg = 0 then .error .zeroDivision
                else
                  .ok { temperature := T - 273.15
                        pressure := P / 1000
                        h_f := hf / 1000
                        s_f := sf / 1000
                        v_f := 1 / df
                        h_g := hg / 1000
                        s_g := sg / 1000
                        v_g := 1 / dg
                        h_fg := hg / 1000 - hf / 1000
                        s_fg := sg / 1000 - sf / 1000 }

/-- `PropertyCalculator.get_saturation_properties` (properties.py lines
89-119): no surrounding `try`/`except`, unlike `get_properties`. -/
def get_saturation_properties (cp : Oracle) (fl : String)
    (temp pressure : Option ℚ) : Except PyErr SatProps :=
  match temp with
  | some t =>
      match cp "P" "T" (t + 273.15) "Q" 0 fl with
      | .error m => .error (.native m)
      | .ok P => satBody cp fl (t + 273.15) P
  | none =>
    match pressure with
    | some p =>
        match cp "T" "P" (p * 1000) "Q" 0 fl with
        | .error m => .error (.native m)
        | .ok T => satBody cp fl T (p * 1000)
    | none => .error (.valueError "Must specify either temperature or pressure")

/-- `PropertyCalculator.FLUID_MAP` (properties.py lines 10-16). -/
def FLUID_MAP : List (String × String) :=
  [("water", "Water"), ("air", "Air"), ("r134a", "R134a"), ("r22", "R22"), ("co2", "CO2")]

/-- `PropertyCalculator.__init__` (properties.py lines 18-22): map the
fluid name through `FLUID_MAP`, failing fast for unsupported fluids. -/
def initFluid (fluid : String) : Except PyErr String :=
  match (FLUID_MAP.lookup fluid.toLower) with
  | some f => .ok f
  | none => .error (.valueError ("Unsupported fluid: " ++ fluid))

/-- Python's float `**` operator and `math.log`, as used by
`polytropic_process`, modelled as abstract total functions on `ℚ`
(their real-number values and domain errors are outside the model). -/
structure FloatOps where
  pow : ℚ → ℚ → ℚ
  log : ℚ → ℚ

/-- Result of `ProcessAnalyzer.isentropic_process`; `process_type` is the
Python argument carried through the result, `none` modelling Python
`None`. -/
structure IsentropicResult where
  inlet : Props
  outlet_isentropic : Props
  outlet_actual : Props
  work : ℚ
  efficiency : ℚ
  process_type : Option String
deriving Repr, DecidableEq, Inhabited

/-- `ProcessAnalyzer.isentropic_process` (processes.py lines 15-52):
resolve inlet at (temp, pressure), ideal outlet at (pressure, entropy),
apply the efficiency formula of the selected branch, resolve the actual
outlet at (pressure, h_actual), and report work as the actual outlet
enthalpy minus the inlet enthalpy.  The compression branch divides by
`efficiency`, raising `ZeroDivisionError` when it is zero. -/
def isentropic_process (cp : Oracle) (fl : String)
    (inlet_temp inlet_pressure outlet_pressure efficiency : ℚ)
    (process_type : Option String) : Except PyErr IsentropicResult :=
  match get_properties cp fl { temp := some inlet_temp, pressure := some inlet_pressure } with
  | .error e => .error e
  | .ok inlet =>
    match get_properties cp fl { pressure := some outlet_pressure, entropy := some inlet.entropy } with
    | .error e => .error e
    | .ok outlet_s =>
      match (if process_type = some "compression" then
               (if efficiency = 0 then Except.error PyErr.zeroDivision
                else Except.ok (inlet.enthalpy + (outlet_s.enthalpy - inlet.enthalpy) / efficiency))
             else Except.ok (inlet.enthalpy - (inlet.enthalpy - outlet_s.enthalpy) * efficiency)) with
      | .error e => .error e
      | .ok h_actual =>
        match get_properties cp fl { pressure := some outlet_pressure, enthalpy := some h_actual } with
        | .error e => .error e
        | .ok outlet_actual =>
          .ok { inlet := inlet
                outlet_isentropic := outlet_s
                outlet_actual := outlet_actual
                work := outlet_actual.enthalpy - inlet.enthalpy
                efficiency := efficiency
                process_type := process_type }

/-- Result of `ProcessAnalyzer.isobaric_process`. -/
structure IsobaricResult where
  inlet : Props
  outlet : Props
  heat_transfer : ℚ
  pressure : ℚ
deriving Repr, DecidableEq, Inhabited

/-- `ProcessAnalyzer.isobaric_process` (processes.py lines 54-67). -/
def isobaric_process (cp : Oracle) (fl : String)
    (inlet_temp pressure outlet_temp : ℚ) : Except PyErr IsobaricResult :=
  match get_properties cp fl { temp := some inlet_temp, pressure := some pressure } with
  | .error e => .error e
  | .ok inlet =>
    match get_properties cp fl { temp := some outlet_temp, pressure := some pressure } with
    | .error e => .error e
    | .ok outlet =>
      .ok { inlet := inlet, outlet := outlet
            heat_transfer := outlet.enthalpy - inlet.enthalpy
            pressure := pressure }

/-- Result of `ProcessAnalyzer.isochoric_process`. -/
structure IsochoricResult where
  inlet : Props
  outlet : Props
  heat_transfer : ℚ
  specific_volume : ℚ
deriving Repr, DecidableEq, Inhabited

/-- `ProcessAnalyzer.isochoric_process` (processes.py lines 69-86): the
outlet pressure comes from the ideal-gas proportionality; dividing by
`inlet_temp + 273.15` raises `ZeroDivisionError` when that is zero. -/
def isochoric_process (cp : Oracle) (fl : String)
    (inlet_temp inlet_pressure outlet_temp : ℚ) : Except PyErr IsochoricResult :=
  match get_properties cp fl { temp := some inlet_temp, pressure := some inlet_pressure } with
  | .error e => .error e
  | .ok inlet =>
    if inlet_temp + 273.15 = 0 then .error .zeroDivision
    else
      match get_properties cp fl
          { temp := some outlet_temp,
            pressure := some (inlet_pressure * (outlet_temp + 273.15) / (inlet_temp + 273.15)) } with
      | .error e => .error e
      | .ok outlet =>
        .ok { inlet := inlet, outlet := outlet
              heat_transfer := outlet.internal_energy - inlet.internal_energy
              specific_volume := inlet.specific_volume }

/-- Result of `ProcessAnalyzer.throttling_process`. -/
structure ThrottlingResult where
  inlet : Props
  outlet : Props
  temperature_drop : ℚ
  enthalpy : ℚ
deriving Repr, DecidableEq, Inhabited

/-- `ProcessAnalyzer.throttling_process` (processes.py lines 88-103). -/
def throttling_process (cp : Oracle) (fl : String)
    (inlet_temp inlet_pressure outlet_pressure : ℚ) : Except PyErr ThrottlingResult :=
  match get_properties cp fl { temp := some inlet_temp, pressure := some inlet_pressure } with
  | .error e => .error e
  | .ok inlet =>
    match get_properties cp fl { pressure := some outlet_pressure, enthalpy := some inlet.enthalpy } with
    | .error e => .error e
    | .ok outlet =>
      .ok { inlet := inlet, outlet := outlet
            temperature_drop := inlet.temperature - outlet.temperature
            enthalpy := inlet.enthalpy }

/-- Result of `ProcessAnalyzer.polytropic_process`. -/
structure PolytropicResult where
  inlet : Props
  outlet : Props
  work : ℚ
  polytropic_index : ℚ
deriving Repr, DecidableEq, Inhabited

/-- `ProcessAnalyzer.polytropic_process` (processes.py lines 105-134):
outlet temperature from the ideal-gas polytropic relation, then the
isothermal work formula when `abs (n - 1) < 0.001`, else the general
polytropic work formula; both use the boundary-unit pressures and specific
volumes directly.  The divisions `outlet_pressure / inlet_pressure` and
`(n - 1) / n` raise `ZeroDivisionError` when their denominators are zero,
in Python's evaluation order. -/
def polytropic_process (ops : FloatOps) (cp : Oracle) (fl : String)
    (inlet_temp inlet_pressure outlet_pressure n : ℚ) : Except PyErr PolytropicResult :=
  match get_properties cp fl { temp := some inlet_temp, pressure := some inlet_pressure } with
  | .error e => .error e
  | .ok inlet =>
    if inlet_pressure = 0 then .error .zeroDivision
    else if n = 0 then .error .zeroDivision
    else
      match get_properties cp fl
          { temp := some ((inlet_temp + 273.15) *
              ops.pow (outlet_pressure / inlet_pressure) ((n - 1) / n) - 273.15),
            pressure := some outlet_pressure } with
      | .error e => .error e
      | .ok outlet =>
        .ok { inlet := inlet, outlet := outlet
              work :=
                if |n - 1| < 0.001 then
                  inlet_pressure * inlet.specific_volume * ops.log (outlet_pressure / inlet_pressure)
                else
                  (n / (n - 1)) * (outlet_pressure * outlet.specific_volume -
                    inlet_pressure * inlet.specific_volume)
              polytropic_index := n }

deriving instance DecidableEq for Except

/-- A collaborator stub whose every query succeeds: density queries return
2, quality queries return 2 (a single-phase sentinel), everything else
returns 1000. -/
def okOracle : Oracle := fun out _ _ _ _ _ =>
  match out with
  | "D" => .ok 2
  | "Q" => .ok 2
  | _ => .ok 1000

/-- A collaborator stub whose every query fails with the message "boom". -/
def badOracle : Oracle := fun _ _ _ _ _ _ => .error "boom"

/-- A collaborator stub like `okOracle` but reporting a two-phase quality
of 1/2 at every state. -/
def qOracle : Oracle := fun out _ _ _ _ _ =>
  match out with
  | "D" => .ok 2
  | "Q" => .ok (1/2)
  | _ => .ok 1000

/-- A collaborator stub with a consistent enthalpy equation of state
(`H(T,P) = T + P`, so the `T`-from-`(P,H)` query inverts it exactly);
used to exhibit concrete runs of the isentropic analysis. -/
def toyOracle : Oracle := fun out n1 v1 n2 v2 _ =>
  match out, n1, n2 with
  | "H", "T", "P" => .ok (v1 + v2)
  | "T", "P", "H" => .ok (v2 - v1)
  | "T", "P", "S" => .ok (v2 + v1)
  | "S", "T", "P" => .ok (v1 - v2)
  | "D", "T", "P" => .ok 2
  | "U", "T", "P" => .ok v1
  | "Q", "T", "P" => .ok 2
  | _, _, _ => .error "unsupported query"

/-- Trivial stand-ins for Python's `**` and `math.log`. -/
def trivOps : FloatOps := ⟨fun _ _ => 1, fun _ => 0⟩

/-- The supplied kwargs contain at least one of the five recognized input
pairs (as a subset). -/
def hasPair (kw : Kwargs) : Bool :=
  (kw.temp.isSome && kw.pressure.isSome) || (kw.temp.isSome && kw.quality.isSome) ||
  (kw.pressure.isSome && kw.enthalpy.isSome) || (kw.pressure.isSome && kw.entropy.isSome) ||
  (kw.enthalpy.isSome && kw.entropy.isSome)

/-- Restriction of the kwargs to the first recognized input pair in the
dispatch order of `get_properties` (temp+pressure, temp+quality,
pressure+enthalpy, pressure+entropy, enthalpy+entropy); the identity when
no recognized pair is present. -/
def firstPair (kw : Kwargs) : Kwargs :=
  match kw.temp, kw.pressure, kw.quality, kw.enthalpy, kw.entropy with
  | some t, some p, _, _, _ => { temp := some t, pressure := some p }
  | some t, _, some q, _, _ => { temp := some t, quality := some q }
  | _, some p, _, some h, _ => { pressure := some p, enthalpy := some h }
  | _, some p, _, _, some s => { pressure := some p, entropy := some s }
  | _, _, _, some h, some s => { enthalpy := some h, entropy := some s }
  | _, _, _, _, _ => kw

/-- An error of the shapes the five process operations can actually
produce: a facade-wrapped `ValueError` or a raw `ZeroDivisionError` from
the process arithmetic. -/
def WrappedOrZero (e : PyErr) : Prop :=
  (∃ m, e = .valueError ("Error calculating properties: " ++ m)) ∨ e = .zeroDivision

/-- The collaborator's `T`-from-`(P,H)` query exactly inverts its
enthalpy-at-`(T,P)` query: the idealization of a convergent solver (the
spec's "up to solver precision"). -/
def HInverse (cp : Oracle) (fl : String) : Prop :=
  ∀ T P hv, cp "H" "T" T "P" P fl = .ok hv → cp "T" "P" P "H" hv fl = .ok T

/-- Concrete result of `isentropic_process okOracle "Water" 20 100 500 (1/2)
(some "compression")`. -/
def c1run : IsentropicResult :=
  ⟨⟨20, 100, 1, 1, 2, 1/2, 1, none⟩, ⟨726.85, 500, 1, 1, 2, 1/2, 1, none⟩,
   ⟨726.85, 500, 1, 1, 2, 1/2, 1, none⟩, 0, 1/2, some "compression"⟩

/-- Concrete result of `isentropic_process okOracle "Water" 25 100 (-5) 1
none`: a call with a `None` process type and a negative outlet pressure
that nevertheless succeeds. -/
def c3run : IsentropicResult :=
  ⟨⟨25, 100, 1, 1, 2, 1/2, 1, none⟩, ⟨726.85, -5, 1, 1, 2, 1/2, 1, none⟩,
   ⟨726.85, -5, 1, 1, 2, 1/2, 1, none⟩, 0, 1, none⟩

/-- Concrete result of `get_properties okOracle "Water"` at
pressure 200 kPa and enthalpy 3 kJ/kg. -/
def c4rec : Props := ⟨726.85, 200, 1, 1, 2, 1/2, 1, none⟩

/-- Concrete result of `get_properties qOracle "Water"` at 50 degC and
101 kPa, carrying a present quality. -/
def c7rec : Props := ⟨50, 101, 1, 1, 2, 1/2, 1, some (1/2)⟩

/-- Concrete result of `isentropic_process toyOracle "Water" 25 100 600 1
(some "compression")`: efficiency one, so the actual outlet equals the
isentropic outlet. -/
def c6run : IsentropicResult :=
  ⟨⟨25, 100, 100.29815, -99.70185, 2, 1/2, 0.29815, none⟩,
   ⟨500025, 600, 1100.29815, -99.70185, 2, 1/2, 500.29815, none⟩,
   ⟨500025, 600, 1100.29815, -99.70185, 2, 1/2, 500.29815, none⟩,
   1000, 1, some "compression"⟩

/-- Concrete result of `polytropic_process trivOps okOracle "Water" 25 100
600 2`. -/
def c9run : PolytropicResult :=
  ⟨⟨25, 100, 1, 1, 2, 1/2, 1, none⟩, ⟨25, 600, 1, 1, 2, 1/2, 1, none⟩, 500, 2⟩

theorem wrapCalc_ok_iff (r : Except PyErr Props) (p : Props) :
    wrapCalc r = .ok p ↔ r = .ok p := by
  cases r <;> simp [wrapCalc]

theorem wrapCalc_error_shape (r : Except PyErr Props) (e : PyErr)
    (h : wrapCalc r = .error e) :
    ∃ m, e = .valueError ("Error calculating properties: " ++ m) := by
  cases r with
  | ok p => simp [wrapCalc] at h
  | error e2 =>
      simp [wrapCalc] at h
      exact ⟨errStr e2, h.symm⟩

theorem gp_ok_iff (cp : Oracle) (fl : String) (kw : Kwargs) (p : Props) :
    get_properties cp fl kw = .ok p ↔
      ∃ T P, resolveTP cp fl kw = .ok (T, P) ∧ populate cp fl T P = .ok p := by
  unfold get_properties
  cases hr : resolveTP cp fl kw with
  | error e => simp [wrapCalc]
  | ok TP =>
      obtain ⟨T, P⟩ := TP
      rw [wrapCalc_ok_iff]
      constructor
      · intro h; exact ⟨T, P, rfl, h⟩
      · rintro ⟨T2, P2, h1, h2⟩
        simp only [Except.ok.injEq, Prod.mk.injEq] at h1
        obtain ⟨rfl, rfl⟩ := h1
        exact h2

theorem gp_error_shape (cp : Oracle) (fl : String) (kw : Kwargs) (e : PyErr)
    (h : get_properties cp fl kw = .error e) :
    ∃ m, e = .valueError ("Error calculating properties: " ++ m) := by
  unfold get_properties at h
  exact wrapCalc_error_shape _ e h

theorem populate_ok_iff (cp : Oracle) (fl : String) (T P : ℚ) (p : Props) :
    populate cp fl T P = .ok p ↔
      ∃ h s d u, cp "H" "T" T "P" P fl = .ok h ∧ cp "S" "T" T "P" P fl = .ok s ∧
        cp "D" "T" T "P" P fl = .ok d ∧ d ≠ 0 ∧ cp "U" "T" T "P" P fl = .ok u ∧
        p = { temperature := T - 273.15, pressure := P / 1000, enthalpy := h / 1000,
              entropy := s / 1000, density := d, specific_volume := 1 / d,
              internal_energy := u / 1000,
              quality := qualityOf (cp "Q" "T" T "P" P fl) } := by
  unfold populate
  cases hH : cp "H" "T" T "P" P fl with
  | error m => simp
  | ok h =>
    cases hS : cp "S" "T" T "P" P fl with
    | error m => simp
    | ok s =>
      cases hD : cp "D" "T" T "P" P fl with
      | error m => simp
      | ok d =>
        by_cases hd : d = 0
        · subst hd; simp
        · simp only [if_neg hd]
          cases hU : cp "U" "T" T "P" P fl with
          | error m => simp [hd]
          | ok u => simp [hd, eq_comm]

theorem gp_tp_fields (cp : Oracle) (fl : String) (t p : ℚ) (pr : Props)
    (h : get_properties cp fl { temp := some t, pressure := some p } = .ok pr) :
    pr.temperature = t ∧ pr.pressure = p := by
  obtain ⟨T, P, hres, hpop⟩ := (gp_ok_iff cp fl _ pr).mp h
  simp only [resolveTP, Except.ok.injEq, Prod.mk.injEq] at hres
  obtain ⟨rfl, rfl⟩ := hres
  obtain ⟨hv, s, d, u, hH, hS, hD, hd, hU, hp⟩ := (populate_ok_iff cp fl _ _ pr).mp hpop
  subst hp
  constructor
  · show t + 273.15 - 273.15 = t
    ring
  · show p * 1000 / 1000 = p
    rw [mul_div_cancel_right₀ p (by norm_num : (1000 : ℚ) ≠ 0)]

/-- C8: for every successful `get_properties` call, the returned
`specific_volume` equals `1 / density`, and `specific_volume * density`
equals `1` (float arithmetic modelled exactly over `ℚ`; success rules out
a zero density, since that would raise `ZeroDivisionError`). -/
theorem C8_specific_volume_inverse_density (cp : Oracle) (fl : String) (kw : Kwargs) (p : Props)
    (h : get_properties cp fl kw = .ok p) :
    p.specific_volume = 1 / p.density ∧ p.specific_volume * p.density = 1 := by
  obtain ⟨T, P, hres, hpop⟩ := (gp_ok_iff cp fl kw p).mp h
  obtain ⟨hv, s, d, u, hH, hS, hD, hd, hU, hp⟩ := (populate_ok_iff cp fl T P p).mp hpop
  subst hp
  exact ⟨rfl, one_div_mul_cancel hd⟩

/-- Witness for C8 at a concrete oracle and input. -/
theorem C8_witness :
    get_properties okOracle "Water" { temp := some 30, pressure := some 200 } =
      .ok ⟨30, 200, 1, 1, 2, 1/2, 1, none⟩ ∧
    ((1 : ℚ)/2 = 1 / 2 ∧ (1/2 : ℚ) * 2 = 1) := by
  have hg : get_properties okOracle "Water" { temp := some 30, pressure := some 200 } =
      .ok ⟨30, 200, 1, 1, 2, 1/2, 1, none⟩ := by
    simp [get_properties, resolveTP, populate, okOracle, wrapCalc, qualityOf]
  exact ⟨hg, C8_specific_volume_inverse_density okOracle "Water" _ _ hg⟩

/-- C4: every successful `get_properties` call first resolves an absolute
(T, P) pair from the inputs (`resolveTP`), and every returned field is
derived from single-property queries at that same (T, P): enthalpy,
entropy, density and internal energy are the collaborator's values
(converted kJ-to-J on the way back out), quality is the normalized quality
query, temperature and pressure are the unit-converted resolved values,
and specific volume is the reciprocal of the returned density. -/
theorem C4_resolve_then_populate (cp : Oracle) (fl : String) (kw : Kwargs)
    (T P : ℚ) (p : Props)
    (hres : resolveTP cp fl kw = .ok (T, P))
    (h : get_properties cp fl kw = .ok p) :
    cp "H" "T" T "P" P fl = .ok (p.enthalpy * 1000) ∧
    cp "S" "T" T "P" P fl = .ok (p.entropy * 1000) ∧
    cp "D" "T" T "P" P fl = .ok p.density ∧
    cp "U" "T" T "P" P fl = .ok (p.internal_energy * 1000) ∧
    p.quality = qualityOf (cp "Q" "T" T "P" P fl) ∧
    p.temperature = T - 273.15 ∧ p.pressure = P / 1000 ∧
    p.specific_volume = 1 / p.density := by
  obtain ⟨T2, P2, hres2, hpop⟩ := (gp_ok_iff cp fl kw p).mp h
  rw [hres] at hres2
  simp only [Except.ok.injEq, Prod.mk.injEq] at hres2
  obtain ⟨rfl, rfl⟩ := hres2
  obtain ⟨hv, s, d, u, hH, hS, hD, hd, hU, hp⟩ := (populate_ok_iff cp fl T P p).mp hpop
  subst hp
  refine ⟨?_, ?_, hD, ?_, rfl, rfl, rfl, rfl⟩
  · show cp "H" "T" T "P" P fl = .ok (hv / 1000 * 1000)
    rw [div_mul_cancel₀ hv (by norm_num : (1000 : ℚ) ≠ 0)]
    exact hH
  · show cp "S" "T" T "P" P fl = .ok (s / 1000 * 1000)
    rw [div_mul_cancel₀ s (by norm_num : (1000 : ℚ) ≠ 0)]
    exact hS
  · show cp "U" "T" T "P" P fl = .ok (u / 1000 * 1000)
    rw [div_mul_cancel₀ u (by norm_num : (1000 : ℚ) ≠ 0)]
    exact hU

/-- Witness for C4 at a concrete oracle and a pressure+enthalpy input. -/
theorem C4_witness :
    resolveTP okOracle "Water" { pressure := some 200, enthalpy := some 3 } = .ok (1000, 200000) ∧
    get_properties okOracle "Water" { pressure := some 200, enthalpy := some 3 } = .ok c4rec ∧
    (okOracle "H" "T" 1000 "P" 200000 "Water" = .ok (c4rec.enthalpy * 1000) ∧
     okOracle "S" "T" 1000 "P" 200000 "Water" = .ok (c4rec.entropy * 1000) ∧
     okOracle "D" "T" 1000 "P" 200000 "Water" = .ok c4rec.density ∧
     okOracle "U" "T" 1000 "P" 200000 "Water" = .ok (c4rec.internal_energy * 1000) ∧
     c4rec.quality = qualityOf (okOracle "Q" "T" 1000 "P" 200000 "Water") ∧
     c4rec.temperature = 1000 - 273.15 ∧ c4rec.pressure = 200000 / 1000 ∧
     c4rec.specific_volume = 1 / c4rec.density) := by
  have hres : resolveTP okOracle "Water" { pressure := some 200, enthalpy := some 3 } =
      .ok (1000, 200000) := by
    simp [resolveTP, okOracle]
    norm_num
  have hg : get_properties okOracle "Water" { pressure := some 200, enthalpy := some 3 } =
      .ok c4rec := by
    simp [get_properties, resolveTP, populate, okOracle, wrapCalc, qualityOf, c4rec]
    norm_num
  exact ⟨hres, hg, C4_resolve_then_populate okOracle "Water" _ 1000 200000 c4rec hres hg⟩

/-- C7: in every successful `get_properties` call, the returned quality is
present (with value q) exactly when the collaborator's quality query at
the resolved (T, P) returns q in [0, 1]; a returned value outside [0, 1]
(such as the single-phase sentinel) and a failing quality query both yield
an absent quality rather than an error. -/
theorem C7_quality_normalization (cp : Oracle) (fl : String) (kw : Kwargs)
    (T P : ℚ) (p : Props)
    (hres : resolveTP cp fl kw = .ok (T, P))
    (h : get_properties cp fl kw = .ok p) :
    (∀ q, p.quality = some q ↔ (cp "Q" "T" T "P" P fl = .ok q ∧ 0 ≤ q ∧ q ≤ 1)) ∧
    (∀ v, cp "Q" "T" T "P" P fl = .ok v → ¬(0 ≤ v ∧ v ≤ 1) → p.quality = none) ∧
    (∀ m, cp "Q" "T" T "P" P fl = .error m → p.quality = none) := by
  obtain ⟨T2, P2, hres2, hpop⟩ := (gp_ok_iff cp fl kw p).mp h
  rw [hres] at hres2
  simp only [Except.ok.injEq, Prod.mk.injEq] at hres2
  obtain ⟨rfl, rfl⟩ := hres2
  obtain ⟨hv, s, d, u, hH, hS, hD, hd, hU, hp⟩ := (populate_ok_iff cp fl T P p).mp hpop
  subst hp
  refine ⟨?_, ?_, ?_⟩
  · intro q
    show qualityOf (cp "Q" "T" T "P" P fl) = some q ↔ _
    cases hq : cp "Q" "T" T "P" P fl with
    | error m => simp [qualityOf]
    | ok v =>
        simp only [qualityOf, Except.ok.injEq]
        by_cases hr : 0 ≤ v ∧ v ≤ 1
        · simp only [if_pos hr, Option.some.injEq]
          constructor
          · rintro rfl; exact ⟨rfl, hr⟩
          · rintro ⟨rfl, _⟩; rfl
        · simp only [if_neg hr]
          constructor
          · intro hfalse; exact absurd hfalse (by simp)
          · rintro ⟨rfl, h1, h2⟩; exact absurd ⟨h1, h2⟩ hr
  · intro v hq hr
    show qualityOf (cp "Q" "T" T "P" P fl) = none
    rw [hq]
    simp [qualityOf, if_neg hr]
  · intro m hq
    show qualityOf (cp "Q" "T" T "P" P fl) = none
    rw [hq]
    rfl

/-- Witness for C7 at a concrete oracle reporting quality 1/2. -/
theorem C7_witness :
    resolveTP qOracle "Water" { temp := some 50, pressure := some 101 } = .ok (323.15, 101000) ∧
    get_properties qOracle "Water" { temp := some 50, pressure := some 101 } = .ok c7rec ∧
    (c7rec.quality = some (1/2) ↔
      (qOracle "Q" "T" 323.15 "P" 101000 "Water" = .ok (1/2) ∧
       (0 : ℚ) ≤ 1/2 ∧ (1/2 : ℚ) ≤ 1)) := by
  have hres : resolveTP qOracle "Water" { temp := some 50, pressure := some 101 } =
      .ok (323.15, 101000) := by
    simp [resolveTP]
    norm_num
  have hg : get_properties qOracle "Water" { temp := some 50, pressure := some 101 } =
      .ok c7rec := by
    simp [get_properties, resolveTP, populate, qOracle, wrapCalc, qualityOf, c7rec]
    norm_num
  exact ⟨hres, hg, (C7_quality_normalization qOracle "Water" _ 323.15 101000 c7rec hres hg).1 (1/2)⟩

/-- C5 counterexample: a supplied set {temp, pressure, entropy} is not
exactly one of the five recognized pairs, yet the call succeeds (the
temp+pressure pair is used and the entropy input is ignored) instead of
failing with the invalid-combination error. -/
theorem C5_counterexample :
    get_properties okOracle "Water" { temp := some 25, pressure := some 100, entropy := some 7 } =
      .ok ⟨25, 100, 1, 1, 2, 1/2, 1, none⟩ := by
  simp [get_properties, resolveTP, populate, okOracle, wrapCalc, qualityOf]

/-- C5 (amended): a `get_properties` call fails with the
invalid-combination `ValueError` (wrapped by the facade's catch-all into
the "Error calculating properties:" message) exactly when the supplied
set of inputs contains none of the five recognized pairs as a subset —
in particular for zero inputs, one input, or an unsupported pair. -/
theorem C5_invalid_combination (cp : Oracle) (fl : String) (kw : Kwargs)
    (hnp : hasPair kw = false) :
    get_properties cp fl kw =
      .error (.valueError "Error calculating properties: Must provide two independent properties (temp+pressure, temp+quality, etc.)") := by
  obtain ⟨t, p, q, hh, s⟩ := kw
  cases t <;> cases p <;> cases q <;> cases hh <;> cases s <;>
    first
      | rfl
      | simp [hasPair] at hnp

/-- Witness for C5 at the empty input set. -/
theorem C5_witness :
    hasPair {} = false ∧
    get_properties okOracle "Water" {} =
      .error (.valueError "Error calculating properties: Must provide two independent properties (temp+pressure, temp+quality, etc.)") :=
  ⟨rfl, C5_invalid_combination okOracle "Water" {} rfl⟩

/-- C10: `get_properties` inspects the supplied inputs in the fixed
dispatch order temp+pressure, temp+quality, pressure+enthalpy,
pressure+entropy, enthalpy+entropy: the call behaves exactly as if only
the first matching pair had been supplied (all other inputs are ignored),
and whenever at least one recognized pair is present the resolution step
never produces the invalid-combination `ValueError`. -/
theorem C10_first_pair_dispatch :
    (∀ (cp : Oracle) (fl : String) (kw : Kwargs),
        get_properties cp fl kw = get_properties cp fl (firstPair kw)) ∧
    (∀ (cp : Oracle) (fl : String) (kw : Kwargs), hasPair kw = true →
        ∀ m, resolveTP cp fl kw ≠ .error (.valueError m)) := by
  constructor
  · intro cp fl kw
    obtain ⟨t, p, q, hh, s⟩ := kw
    cases t <;> cases p <;> cases q <;> cases hh <;> cases s <;> rfl
  · intro cp fl kw hp m
    obtain ⟨t, p, q, hh, s⟩ := kw
    cases t <;> cases p <;> cases q <;> cases hh <;> cases s <;>
      first
        | (unfold resolveTP
           (repeat' split) <;> simp
           done)
        | simp [hasPair] at hp

/-- Witness for C10: temp, pressure and entropy supplied together form a
recognized-pair-containing set, and resolution does not produce the
invalid-combination error. -/
theorem C10_witness :
    hasPair { temp := some 25, pressure := some 100, entropy := some 7 } = true ∧
    resolveTP okOracle "Water" { temp := some 25, pressure := some 100, entropy := some 7 } ≠
      .error (.valueError "Must provide two independent properties (temp+pressure, temp+quality, etc.)") :=
  ⟨rfl, C10_first_pair_dispatch.2 okOracle "Water"
    { temp := some 25, pressure := some 100, entropy := some 7 } rfl
    "Must provide two independent properties (temp+pressure, temp+quality, etc.)"⟩

/-- C2 counterexample: with a collaborator that fails (message "boom"),
`get_saturation_properties` lets the collaborator's native error type
escape unwrapped, so the claim that neither facade operation ever leaks
the native error type is false. -/
theorem C2_counterexample :
    get_saturation_properties badOracle "Water" (some 25) none = .error (.native "boom") := by
  simp [get_saturation_properties, badOracle]

/-- C2 (amended): every failure of `get_properties` is caught at the
facade boundary and re-raised as the single wrapped `ValueError` carrying
the underlying message; `get_saturation_properties`, however, performs no
such wrapping — a failing collaborator call during it (here the
saturation-pressure query of the temperature branch) escapes as the
collaborator's native error, message intact. -/
theorem C2_error_propagation (cp : Oracle) (fl : String) :
    (∀ (kw : Kwargs) (e : PyErr), get_properties cp fl kw = .error e →
        ∃ m, e = .valueError ("Error calculating properties: " ++ m)) ∧
    (∀ (t : ℚ) (m : String), cp "P" "T" (t + 273.15) "Q" 0 fl = .error m →
        get_saturation_properties cp fl (some t) none = .error (.native m)) := by
  constructor
  · intro kw e h
    exact gp_error_shape cp fl kw e h
  · intro t m h
    unfold get_saturation_properties
    simp [h]

/-- Witness for C2 at the always-failing collaborator: a `get_properties`
failure carries the wrapped message, and the saturation query leaks the
native error. -/
theorem C2_witness :
    (∃ m, PyErr.valueError "Error calculating properties: boom" =
        .valueError ("Error calculating properties: " ++ m)) ∧
    badOracle "P" "T" ((25 : ℚ) + 273.15) "Q" 0 "Water" = .error "boom" ∧
    get_saturation_properties badOracle "Water" (some 25) none = .error (.native "boom") := by
  have hgp : get_properties badOracle "Water" { temp := some 25, pressure := some 100 } =
      .error (.valueError "Error calculating properties: boom") := by
    simp [get_properties, resolveTP, populate, badOracle, wrapCalc, errStr]
  refine ⟨(C2_error_propagation badOracle "Water").1 { temp := some 25, pressure := some 100 } _ hgp,
    rfl, (C2_error_propagation badOracle "Water").2 25 "boom" rfl⟩

/-- C3 counterexample: an isentropic call with a `None` process type and a
negative (non-positive) outlet pressure succeeds — no `InvalidInputError`
is raised before (or instead of) the facade calls. -/
theorem C3_counterexample :
    isentropic_process okOracle "Water" 25 100 (-5) 1 none = .ok c3run := by
  simp [isentropic_process, get_properties, resolveTP, populate, okOracle, wrapCalc,
    qualityOf, c3run]
  norm_num

/-- C3 (amended): the five process operations perform no argument
validation at all.  A `None` process type is not rejected — it simply
selects the expansion branch — and invalid pressures are passed straight
to the facade.  Every failure any of the five operations can produce is
either a facade-wrapped PropertyCalculationError (the "Error calculating
properties:" `ValueError`) or a raw `ZeroDivisionError` from the process
arithmetic; no `InvalidInputError` exists. -/
theorem C3_no_argument_validation :
    (∀ (cp : Oracle) (fl : String) (t p1 p2 eff : ℚ),
        Except.map (fun r => { r with process_type := some "expansion" })
            (isentropic_process cp fl t p1 p2 eff none) =
          isentropic_process cp fl t p1 p2 eff (some "expansion")) ∧
    (∀ (cp : Oracle) (fl : String) (t p1 p2 eff : ℚ) (pt : Option String) (e : PyErr),
        isentropic_process cp fl t p1 p2 eff pt = .error e → WrappedOrZero e) ∧
    (∀ (cp : Oracle) (fl : String) (t p t2 : ℚ) (e : PyErr),
        isobaric_process cp fl t p t2 = .error e → WrappedOrZero e) ∧
    (∀ (cp : Oracle) (fl : String) (t p1 t2 : ℚ) (e : PyErr),
        isochoric_process cp fl t p1 t2 = .error e → WrappedOrZero e) ∧
    (∀ (cp : Oracle) (fl : String) (t p1 p2 : ℚ) (e : PyErr),
        throttling_process cp fl t p1 p2 = .error e → WrappedOrZero e) ∧
    (∀ (ops : FloatOps) (cp : Oracle) (fl : String) (t p1 p2 n : ℚ) (e : PyErr),
        polytropic_process ops cp fl t p1 p2 n = .error e → WrappedOrZero e) := by
  refine ⟨?_, ?_, ?_, ?_, ?_, ?_⟩
  · intro cp fl t p1 p2 eff
    unfold isentropic_process
    cases h1 : get_properties cp fl { temp := some t, pressure := some p1 } with
    | error e => rfl
    | ok inlet =>
      cases h2 : get_properties cp fl { pressure := some p2, entropy := some inlet.entropy } with
      | error e => simp [h2, Except.map]
      | ok outlet_s =>
        cases h3 : get_properties cp fl { pressure := some p2, enthalpy := some (inlet.enthalpy - (inlet.enthalpy - outlet_s.enthalpy) * eff) } with
        | error e => simp [h2, h3, Except.map]
        | ok outlet_actual => simp [h2, h3, Except.map]
  · intro cp fl t p1 p2 eff pt e h
    unfold isentropic_process at h
    try split at h <;> try split at h <;> try split at h <;> try split at h <;> try split at h
    all_goals
      first
        | exact Except.noConfusion h
        | (rename_i heq
           obtain rfl := Except.error.inj h
           exact Or.inl (gp_error_shape _ _ _ _ heq))
        | (rename_i heq
           obtain rfl := Except.error.inj h
           split at heq
           · split at heq
             · exact Or.inr (Except.error.inj heq).symm
             · exact Except.noConfusion heq
           · exact Except.noConfusion heq)
  · intro cp fl t p t2 e h
    unfold isobaric_process at h
    try split at h <;> try split at h <;> try split at h
    all_goals
      first
        | exact Except.noConfusion h
        | (rename_i heq
           obtain rfl := Except.error.inj h
           exact Or.inl (gp_error_shape _ _ _ _ heq))
  · intro cp fl t p1 t2 e h
    unfold isochoric_process at h
    try split at h <;> try split at h <;> try split at h <;> try split at h
    all_goals
      first
        | exact Except.noConfusion h
        | (obtain rfl := Except.error.inj h
           exact Or.inr rfl)
        | (rename_i heq
           obtain rfl := Except.error.inj h
           exact Or.inl (gp_error_shape _ _ _ _ heq))
  · intro cp fl t p1 p2 e h
    unfold throttling_process at h
    try split at h <;> try split at h <;> try split at h
    all_goals
      first
        | exact Except.noConfusion h
        | (rename_i heq
           obtain rfl := Except.error.inj h
           exact Or.inl (gp_error_shape _ _ _ _ heq))
  · intro ops cp fl t p1 p2 n e h
    unfold polytropic_process at h
    try split at h <;> try split at h <;> try split at h <;> try split at h <;> try split at h
    all_goals
      first
        | exact Except.noConfusion h
        | (obtain rfl := Except.error.inj h
           exact Or.inr rfl)
        | (rename_i heq
           obtain rfl := Except.error.inj h
           exact Or.inl (gp_error_shape _ _ _ _ heq))

/-- Witness for C3: a concrete failing run whose error has the wrapped
facade shape. -/
theorem C3_witness :
    isentropic_process badOracle "Water" 25 100 600 1 (some "compression") =
      .error (.valueError "Error calculating properties: boom") ∧
    WrappedOrZero (.valueError "Error calculating properties: boom") := by
  have h : isentropic_process badOracle "Water" 25 100 600 1 (some "compression") =
      .error (.valueError "Error calculating properties: boom") := by
    simp [isentropic_process, get_properties, resolveTP, populate, badOracle, wrapCalc, errStr]
  exact ⟨h, C3_no_argument_validation.2.1 badOracle "Water" 25 100 600 1 (some "compression") _ h⟩

/-- C1: for every successful `isentropic_process` call, the inlet is the
state resolved at (inlet_temp, inlet_pressure), the isentropic outlet is
the state resolved at (outlet_pressure, entropy = inlet entropy), the
actual outlet is the state resolved at (outlet_pressure, h_actual) with
h_actual given by the compression formula
h_inlet + (h_isentropic − h_inlet) / efficiency when the process type is
"compression" and by the expansion formula
h_inlet − (h_inlet − h_isentropic) × efficiency otherwise, and the
reported work is the actual outlet enthalpy minus the inlet enthalpy. -/
theorem C1_isentropic_formulas (cp : Oracle) (fl : String)
    (t p1 p2 eff : ℚ) (pt : Option String) (r : IsentropicResult)
    (h : isentropic_process cp fl t p1 p2 eff pt = .ok r) :
    get_properties cp fl { temp := some t, pressure := some p1 } = .ok r.inlet ∧
    get_properties cp fl { pressure := some p2, entropy := some r.inlet.entropy } =
      .ok r.outlet_isentropic ∧
    (pt = some "compression" →
      get_properties cp fl { pressure := some p2, enthalpy := some (r.inlet.enthalpy + (r.outlet_isentropic.enthalpy - r.inlet.enthalpy) / eff) } = .ok r.outlet_actual) ∧
    (pt ≠ some "compression" →
      get_properties cp fl { pressure := some p2, enthalpy := some (r.inlet.enthalpy - (r.inlet.enthalpy - r.outlet_isentropic.enthalpy) * eff) } = .ok r.outlet_actual) ∧
    r.work = r.outlet_actual.enthalpy - r.inlet.enthalpy := by
  unfold isentropic_process at h
  cases h1 : get_properties cp fl { temp := some t, pressure := some p1 } with
  | error e => simp only [h1] at h; exact Except.noConfusion h
  | ok inlet =>
    simp only [h1] at h
    cases h2 : get_properties cp fl { pressure := some p2, entropy := some inlet.entropy } with
    | error e => simp only [h2] at h; exact Except.noConfusion h
    | ok outlet_s =>
      simp only [h2] at h
      by_cases hpt : pt = some "compression"
      · rw [if_pos hpt] at h
        by_cases heff : eff = 0
        · rw [if_pos heff] at h; exact Except.noConfusion h
        · rw [if_neg heff] at h
          cases h3 : get_properties cp fl { pressure := some p2, enthalpy := some (inlet.enthalpy + (outlet_s.enthalpy - inlet.enthalpy) / eff) } with
          | error e => simp only [h3] at h; exact Except.noConfusion h
          | ok outlet_actual =>
            simp only [h3] at h
            obtain rfl := (Except.ok.inj h).symm
            exact ⟨rfl, h2, fun _ => h3, fun hn => absurd hpt hn, rfl⟩
      · rw [if_neg hpt] at h
        cases h3 : get_properties cp fl { pressure := some p2, enthalpy := some (inlet.enthalpy - (inlet.enthalpy - outlet_s.enthalpy) * eff) } with
        | error e => simp only [h3] at h; exact Except.noConfusion h
        | ok outlet_actual =>
          simp only [h3] at h
          obtain rfl := (Except.ok.inj h).symm
          exact ⟨rfl, h2, fun hc => absurd hc hpt, fun _ => h3, rfl⟩

/-- Witness for C1 at a concrete compression run with efficiency 1/2. -/
theorem C1_witness :
    isentropic_process okOracle "Water" 20 100 500 (1/2) (some "compression") = .ok c1run ∧
    get_properties okOracle "Water" { temp := some 20, pressure := some 100 } = .ok c1run.inlet ∧
    get_properties okOracle "Water" { pressure := some 500, enthalpy := some (c1run.inlet.enthalpy + (c1run.outlet_isentropic.enthalpy - c1run.inlet.enthalpy) / (1/2)) } =
      .ok c1run.outlet_actual ∧
    c1run.work = c1run.outlet_actual.enthalpy - c1run.inlet.enthalpy := by
  have h : isentropic_process okOracle "Water" 20 100 500 (1/2) (some "compression") = .ok c1run := by
    simp [isentropic_process, get_properties, resolveTP, populate, okOracle, wrapCalc,
      qualityOf, c1run]
    norm_num
  have hc := C1_isentropic_formulas okOracle "Water" 20 100 500 (1/2) (some "compression") c1run h
  exact ⟨h, hc.1, hc.2.2.1 rfl, hc.2.2.2.2⟩

/-- C9: for every successful `polytropic_process` call, the outlet
temperature satisfies the ideal-gas polytropic relation
T_outlet_K = T_inlet_K × (P_outlet/P_inlet) ** ((n−1)/n), and the reported
work is P_inlet × v_inlet × log(P_outlet/P_inlet) when |n − 1| < 0.001 and
(n/(n−1)) × (P_outlet × v_outlet − P_inlet × v_inlet) otherwise, evaluated
directly on the boundary-unit pressures and specific volumes. -/
theorem C9_polytropic_formulas (ops : FloatOps) (cp : Oracle) (fl : String)
    (t p1 p2 n : ℚ) (r : PolytropicResult)
    (h : polytropic_process ops cp fl t p1 p2 n = .ok r) :
    r.outlet.temperature + 273.15 = (t + 273.15) * ops.pow (p2 / p1) ((n - 1) / n) ∧
    r.work = (if |n - 1| < 0.001 then
                p1 * r.inlet.specific_volume * ops.log (p2 / p1)
              else
                (n / (n - 1)) * (p2 * r.outlet.specific_volume -
                  p1 * r.inlet.specific_volume)) := by
  unfold polytropic_process at h
  cases h1 : get_properties cp fl { temp := some t, pressure := some p1 } with
  | error e => simp only [h1] at h; exact Except.noConfusion h
  | ok inlet =>
    simp only [h1] at h
    by_cases hp1 : p1 = 0
    · rw [if_pos hp1] at h; exact Except.noConfusion h
    · rw [if_neg hp1] at h
      by_cases hn : n = 0
      · rw [if_pos hn] at h; exact Except.noConfusion h
      · rw [if_neg hn] at h
        cases h2 : get_properties cp fl { temp := some ((t + 273.15) * ops.pow (p2 / p1) ((n - 1) / n) - 273.15), pressure := some p2 } with
        | error e => simp only [h2] at h; exact Except.noConfusion h
        | ok outlet =>
          simp only [h2] at h
          obtain rfl := (Except.ok.inj h).symm
          have hT := gp_tp_fields cp fl _ _ _ h2
          constructor
          · show outlet.temperature + 273.15 = (t + 273.15) * ops.pow (p2 / p1) ((n - 1) / n)
            rw [hT.1]
            ring
          · rfl

/-- Witness for C9 at a concrete run with n = 2 (general work branch). -/
theorem C9_witness :
    polytropic_process trivOps okOracle "Water" 25 100 600 2 = .ok c9run ∧
    (c9run.outlet.temperature + 273.15 = (25 + 273.15) * trivOps.pow (600 / 100) ((2 - 1) / 2) ∧
     c9run.work = (if |(2 : ℚ) - 1| < 0.001 then
                     100 * c9run.inlet.specific_volume * trivOps.log (600 / 100)
                   else
                     ((2 : ℚ) / (2 - 1)) * (600 * c9run.outlet.specific_volume -
                       100 * c9run.inlet.specific_volume))) := by
  have h : polytropic_process trivOps okOracle "Water" 25 100 600 2 = .ok c9run := by
    simp [polytropic_process, get_properties, resolveTP, populate, okOracle, trivOps,
      wrapCalc, qualityOf, c9run]
    norm_num
  exact ⟨h, C9_polytropic_formulas trivOps okOracle "Water" 25 100 600 2 c9run h⟩

theorem gp_PH_of_PS (cp : Oracle) (fl : String) (hinv : HInverse cp fl) (p2 s : ℚ) (q : Props)
    (h : get_properties cp fl { pressure := some p2, entropy := some s } = .ok q) :
    get_properties cp fl { pressure := some p2, enthalpy := some q.enthalpy } = .ok q := by
  obtain ⟨T, P, hres, hpop⟩ := (gp_ok_iff cp fl _ q).mp h
  simp only [resolveTP] at hres
  cases hT : cp "T" "P" (p2 * 1000) "S" (s * 1000) fl with
  | error m => simp only [hT] at hres; exact Except.noConfusion hres
  | ok T0 =>
    simp only [hT, Except.ok.injEq, Prod.mk.injEq] at hres
    obtain ⟨rfl, hP⟩ := hres
    obtain ⟨hv, sv, d, u, hH, hS, hD, hd, hU, hq⟩ := (populate_ok_iff cp fl _ _ q).mp hpop
    apply (gp_ok_iff cp fl _ q).mpr
    refine ⟨T0, P, ?_, hpop⟩
    simp only [resolveTP]
    have hE : q.enthalpy * 1000 = hv := by
      rw [hq]
      show hv / 1000 * 1000 = hv
      exact div_mul_cancel₀ hv (by norm_num)
    rw [hE, hP, hinv T0 P hv hH]

/-- C6: with efficiency 1, every successful `isentropic_process` call (in
either branch) returns an actual outlet state equal to the isentropic
outlet state, provided the collaborator's `T`-from-`(P,H)` query exactly
inverts its enthalpy query (`HInverse`, the exact-model reading of the
spec's "up to solver precision"). -/
theorem C6_unit_efficiency (cp : Oracle) (fl : String) (t p1 p2 : ℚ)
    (pt : Option String) (r : IsentropicResult)
    (hinv : HInverse cp fl)
    (h : isentropic_process cp fl t p1 p2 1 pt = .ok r) :
    r.outlet_actual = r.outlet_isentropic := by
  unfold isentropic_process at h
  cases h1 : get_properties cp fl { temp := some t, pressure := some p1 } with
  | error e => simp only [h1] at h; exact Except.noConfusion h
  | ok inlet =>
    simp only [h1] at h
    cases h2 : get_properties cp fl { pressure := some p2, entropy := some inlet.entropy } with
    | error e => simp only [h2] at h; exact Except.noConfusion h
    | ok outlet_s =>
      simp only [h2] at h
      have hmain : (match get_properties cp fl { pressure := some p2, enthalpy := some outlet_s.enthalpy } with
          | Except.error e => (Except.error e : Except PyErr IsentropicResult)
          | Except.ok outlet_actual => Except.ok ⟨inlet, outlet_s, outlet_actual, outlet_actual.enthalpy - inlet.enthalpy, (1 : ℚ), pt⟩) = .ok r := by
        by_cases hpt : pt = some "compression"
        · rw [if_pos hpt, if_neg (one_ne_zero : ¬(1 : ℚ) = 0)] at h
          rw [show inlet.enthalpy + (outlet_s.enthalpy - inlet.enthalpy) / 1 = outlet_s.enthalpy from by ring] at h
          exact h
        · rw [if_neg hpt] at h
          rw [show inlet.enthalpy - (inlet.enthalpy - outlet_s.enthalpy) * 1 = outlet_s.enthalpy from by ring] at h
          exact h
      rw [gp_PH_of_PS cp fl hinv p2 inlet.entropy outlet_s h2] at hmain
      obtain rfl := (Except.ok.inj hmain).symm
      rfl

theorem toyOracle_hinv : HInverse toyOracle "Water" := by
  intro T P hv h
  simp only [toyOracle, Except.ok.injEq] at h ⊢
  linarith

/-- Witness for C6: a concrete efficiency-1 compression run on the
consistent toy collaborator, whose actual outlet equals its isentropic
outlet. -/
theorem C6_witness :
    HInverse toyOracle "Water" ∧
    isentropic_process toyOracle "Water" 25 100 600 1 (some "compression") = .ok c6run ∧
    c6run.outlet_actual = c6run.outlet_isentropic := by
  have hrun : isentropic_process toyOracle "Water" 25 100 600 1 (some "compression") = .ok c6run := by
    simp [isentropic_process, get_properties, resolveTP, populate, toyOracle, wrapCalc,
      qualityOf, c6run]
    norm_num
  exact ⟨toyOracle_hinv, hrun,
    C6_unit_efficiency toyOracle "Water" 25 100 600 (some "compression") c6run toyOracle_hinv hrun⟩
